import Mathlib

/-!
Shallow embedding of `src/canfar/vospace.py` (the `VOSpaceClient` class and
its Bearer-auth header adaptation shim) and proofs about its behaviour.

HTTP header maps are modelled as association lists `List (String × String)`
with Python-dict-like operations (membership, lookup, delete, insert).
Python `os.environ` is modelled as a record of the two relevant variables,
each an `Option String` (`none` = unset).  Python truthiness of an optional
string (`not os.getenv(...)`, `if self._token:`) is `pyTruthy`.
Raising of `AttributeError` at the two structural access points inside the
shim (`endpoint.conn.ws_client` and `ws_client._get_session()`) is modelled
by two Boolean capability flags on the endpoint; raising of the wrapped
`vos.Client` constructor is modelled by a Boolean parameter, with the result
of `vos_client` returned in `Except`.
-/

namespace Canfar

/-- Header maps (Python `dict[str, str]`) as association lists. -/
abbrev Headers := List (String × String)

/-- Python `k in d` on a header dict. -/
def hmem (k : String) : Headers → Bool
  | [] => false
  | p :: t => p.1 == k || hmem k t

/-- Python `d[k]` lookup (as an `Option`). -/
def hget : Headers → String → Option String
  | [], _ => none
  | p :: t, k => if p.1 == k then some p.2 else hget t k

/-- Python `del d[k]` (keys are unique in a dict, so removing every
occurrence agrees with removing the one binding). -/
def hdel : Headers → String → Headers
  | [], _ => []
  | p :: t, k => if p.1 == k then hdel t k else p :: hdel t k

/-- Python `d[k] = v`: overwrite in place if the key is present, else
append at the end (dicts preserve insertion order). -/
def hset : Headers → String → String → Headers
  | [], k, v => [(k, v)]
  | p :: t, k, v => if p.1 == k then (k, v) :: t else p :: hset t k v

/-- Python truthiness of an optional string: `None` and `""` are falsy. -/
def pyTruthy : Option String → Bool
  | none => false
  | some s => !(s == "")

/-- Constant from vospace.py line 19: default VOSpace webservice host. -/
def DEFAULT_VOSPACE_HOST : String := "spsrc27.iaa.csic.es"

/-- Constant from vospace.py line 22: header used by the vos library for
delegation token auth. -/
def HEADER_DELEG_TOKEN : String := "X-CADC-DelegationToken"

/-- State of `endpoint.conn.ws_client` reachable from a resolved endpoint:
the persistent `session_headers` dict (may be `None` in Python) and the
headers of the live session returned by `_get_session()`. -/
structure WsClient where
  session_headers : Option Headers
  headers : Headers
deriving DecidableEq

/-- A resolved endpoint.  `connOk` is false when accessing
`endpoint.conn.ws_client` raises `AttributeError`; `getSessionOk` is false
when `ws_client._get_session()` raises `AttributeError`. -/
structure Endpoint where
  connOk : Bool
  getSessionOk : Bool
  ws : WsClient
deriving DecidableEq

/-- vospace.py lines 102-105: clear `X-CADC-DelegationToken` from the
persistent `session_headers` dict when that dict is truthy (not `None`, not
empty) and contains the header. -/
def clearShDeleg : Option Headers → Option Headers
  | none => none
  | some hs =>
      if !hs.isEmpty && hmem HEADER_DELEG_TOKEN hs then
        some (hdel hs HEADER_DELEG_TOKEN)
      else some hs

/-- vospace.py lines 107-117: on the live session's headers, remove
`X-CADC-DelegationToken` if present, then add `Authorization: Bearer
<token>` if no `Authorization` header is present. -/
def adaptLiveHeaders (token : String) (s0 : Headers) : Headers :=
  let s1 := if hmem HEADER_DELEG_TOKEN s0 then hdel s0 HEADER_DELEG_TOKEN else s0
  if hmem "Authorization" s1 then s1
  else hset s1 "Authorization" ("Bearer " ++ token)

/-- The body of `patched_get_endpoints` after the original resolution has
produced `e` (vospace.py lines 98-121): the `try` block mutating the header
state, with `except AttributeError` modelled by the capability flags.
Returns the endpoint (always — the except clause swallows the error) and
whether the warning branch was taken. -/
def adaptHeaders (token : String) (e : Endpoint) : Endpoint × Bool :=
  if e.connOk = false then
    (e, true)
  else
    let ws := e.ws
    let ws1 : WsClient := { ws with session_headers := clearShDeleg ws.session_headers }
    if e.getSessionOk = false then
      ({ e with ws := ws1 }, true)
    else
      ({ e with ws := { ws1 with headers := adaptLiveHeaders token ws1.headers } }, false)

/-- vospace.py lines 94-122: the wrapper installed over the client's
original `get_endpoints`.  It runs the original resolution, then adapts the
resulting endpoint's headers.  The Boolean records whether the warning
branch ran. -/
def patched_get_endpoints (token : String) (original_get_endpoints : String → Endpoint)
    (uri : String) : Endpoint × Bool :=
  let endpoint := original_get_endpoints uri
  adaptHeaders token endpoint

/-- The endpoint-resolution operation held by a client: either the wrapped
library's original implementation, or the shim wrapper closed over a token
(installed by `_patch_bearer_auth`).  Reference equality to the original
implementation is constructor equality to `original`. -/
inductive GetEndpointsImpl
  | original
  | patched (token : String)
deriving DecidableEq

/-- One call of the client's endpoint-resolution operation on an endpoint
whose current header state is `e`; returns the endpoint state afterwards and
the number of times the header-mutation routine was invoked (0 or 1). -/
def resolveOnce (g : GetEndpointsImpl) (e : Endpoint) : Endpoint × Nat :=
  match g with
  | .original => (e, 0)
  | .patched tok => ((adaptHeaders tok e).1, 1)

/-- Resolving the same endpoint `n` times through implementation `g`,
threading its header state; counts header-mutation-routine invocations. -/
def resolveTimes (g : GetEndpointsImpl) (e : Endpoint) : Nat → Endpoint × Nat
  | 0 => (e, 0)
  | n + 1 =>
      let r1 := resolveTimes g e n
      let r2 := resolveOnce g r1.1
      (r2.1, r1.2 + r2.2)

/-- The constructed `vos.Client`, recording the value passed to the
constructor's `vospace_token` parameter (vospace.py line 75) and which
endpoint-resolution implementation it currently holds. -/
structure VosClient where
  ctor_vospace_token : Option String
  get_endpoints : GetEndpointsImpl
deriving DecidableEq

/-- The two environment variables read by `vos_client`
(vospace.py line 60); `none` means unset in `os.environ`. -/
structure Env where
  vospace_webservice : Option String
  local_vospace_webservice : Option String
deriving DecidableEq

/-- vospace.py lines 60-62: set the default host when neither override is
truthy (`not os.getenv(A) and not os.getenv(B)`). -/
def applyDefaultHost (env : Env) : Env :=
  if pyTruthy env.vospace_webservice || pyTruthy env.local_vospace_webservice then env
  else { env with vospace_webservice := some DEFAULT_VOSPACE_HOST }

/-- Mutable fields of `VOSpaceClient` set in `__init__` (vospace.py
lines 45-49): the cached client `_vos_client` and the captured token
`_token`, both initially `None`. -/
structure ClientState where
  vos_client_cache : Option VosClient
  token_cache : Option String
deriving DecidableEq

/-- State after `VOSpaceClient.__init__`. -/
def initState : ClientState := ⟨none, none⟩

/-- vospace.py lines 74-81: the client built on a cache miss.  Line 75
passes the captured token to the `vos.Client` constructor through its
`vospace_token` parameter; lines 80-81 install the Bearer patch only when
the captured token is truthy. -/
def constructedClient (tok : Option String) : VosClient :=
  let c0 : VosClient := { ctor_vospace_token := tok, get_endpoints := .original }
  if pyTruthy tok then { c0 with get_endpoints := .patched (tok.getD "") }
  else c0

/-- vospace.py lines 51-83, the `vos_client` property, as a state
transition.  Inputs: whether the wrapped `vos.Client(...)` constructor
raises (`ctor_fails`), the process environment, the access token held by the
active authentication context (`none` when `ctx` has no truthy `token`
attribute), and the handle's mutable state.  Output: the returned client (or
the propagated constructor exception), the handle state afterwards, and the
process environment afterwards. -/
def vos_client_access (ctor_fails : Bool) (env : Env) (ctx_token : Option String)
    (st : ClientState) : Except Unit VosClient × ClientState × Env :=
  match st.vos_client_cache with
  | some c => (.ok c, st, env)
  | none =>
      let env1 := applyDefaultHost env
      let tok := ctx_token
      let st1 : ClientState := { st with token_cache := tok }
      if ctor_fails then
        (.error (), st1, env1)
      else
        let c1 := constructedClient tok
        (.ok c1, { st1 with vos_client_cache := some c1 }, env1)

/-- The client returned by one `vos_client` access, when construction
succeeded. -/
def builtClient (ctor_fails : Bool) (env : Env) (ctx_token : Option String)
    (st : ClientState) : Option VosClient :=
  match (vos_client_access ctor_fails env ctx_token st).1 with
  | .ok c => some c
  | .error _ => none

/-- Whether a persistent `session_headers` dict (possibly `None`) contains
the delegation-token header. -/
def shHasDeleg : Option Headers → Bool
  | none => false
  | some hs => hmem HEADER_DELEG_TOKEN hs

theorem hmem_hdel_self (k : String) (h : Headers) : hmem k (hdel h k) = false := by
  induction h with
  | nil => rfl
  | cons p t ih =>
      cases hb : (p.1 == k) with
      | true => simpa [hdel, hb] using ih
      | false => simpa [hdel, hmem, hb] using ih

theorem hmem_hdel_ne (k k2 : String) (h : Headers) (hk : k ≠ k2) :
    hmem k (hdel h k2) = hmem k h := by
  induction h with
  | nil => rfl
  | cons p t ih =>
      cases hb : (p.1 == k2) with
      | true =>
          have hp : p.1 = k2 := eq_of_beq hb
          have hbk : (p.1 == k) = false := by
            simp [hp]
            exact Ne.symm hk
          simp [hdel, hmem, hb, hbk, ih]
      | false => simp [hdel, hmem, hb, ih]

theorem hget_hdel_ne (k k2 : String) (h : Headers) (hk : k ≠ k2) :
    hget (hdel h k2) k = hget h k := by
  induction h with
  | nil => rfl
  | cons p t ih =>
      cases hb : (p.1 == k2) with
      | true =>
          have hp : p.1 = k2 := eq_of_beq hb
          have hbk : (p.1 == k) = false := by
            simp [hp]
            exact Ne.symm hk
          simp [hdel, hget, hb, hbk, ih]
      | false =>
          cases hq : (p.1 == k) with
          | true => simp [hdel, hget, hb, hq]
          | false => simp [hdel, hget, hb, hq, ih]

theorem hget_hset_self (k v : String) (h : Headers) :
    hget (hset h k v) k = some v := by
  induction h with
  | nil => simp [hset, hget]
  | cons p t ih =>
      cases hb : (p.1 == k) with
      | true => simp [hset, hget, hb]
      | false => simp [hset, hget, hb, ih]

theorem hmem_hset_self (k v : String) (h : Headers) : hmem k (hset h k v) = true := by
  induction h with
  | nil => simp [hset, hmem]
  | cons p t ih =>
      cases hb : (p.1 == k) with
      | true => simp [hset, hmem, hb]
      | false => simp [hset, hmem, hb, ih]

theorem hmem_hset_ne (k k2 v : String) (h : Headers) (hk : k ≠ k2) :
    hmem k (hset h k2 v) = hmem k h := by
  induction h with
  | nil =>
      have hbk : (k2 == k) = false := by
        simp
        exact Ne.symm hk
      simp [hset, hmem, hbk]
  | cons p t ih =>
      cases hb : (p.1 == k2) with
      | true =>
          have hp : p.1 = k2 := eq_of_beq hb
          have hbk : (k2 == k) = false := by
            simp
            exact Ne.symm hk
          simp [hset, hmem, hb, hbk, hp]
      | false => simp [hset, hmem, hb, ih]

theorem hmem_deleg_hset_auth (v : String) (h : Headers) :
    hmem HEADER_DELEG_TOKEN (hset h "Authorization" v) = hmem HEADER_DELEG_TOKEN h :=
  hmem_hset_ne _ _ _ _ (by decide)

theorem hmem_auth_hdel_deleg (h : Headers) :
    hmem "Authorization" (hdel h HEADER_DELEG_TOKEN) = hmem "Authorization" h :=
  hmem_hdel_ne _ _ _ (by decide)

theorem hget_auth_hdel_deleg (h : Headers) :
    hget (hdel h HEADER_DELEG_TOKEN) "Authorization" = hget h "Authorization" :=
  hget_hdel_ne _ _ _ (by decide)

theorem shHasDeleg_clearShDeleg (sh : Option Headers) :
    shHasDeleg (clearShDeleg sh) = false := by
  cases sh with
  | none => rfl
  | some hs =>
      cases hs with
      | nil => rfl
      | cons p t =>
          cases hm : hmem HEADER_DELEG_TOKEN (p :: t) with
          | true => simp [clearShDeleg, hm, shHasDeleg, hmem_hdel_self]
          | false => simp [clearShDeleg, hm, shHasDeleg]

theorem clearShDeleg_idem (sh : Option Headers) :
    clearShDeleg (clearShDeleg sh) = clearShDeleg sh := by
  have h := shHasDeleg_clearShDeleg sh
  cases hc : clearShDeleg sh with
  | none => rfl
  | some hs =>
      rw [hc] at h
      simp only [shHasDeleg] at h
      simp [clearShDeleg, h]

theorem hmem_deleg_adaptLive (t : String) (s0 : Headers) :
    hmem HEADER_DELEG_TOKEN (adaptLiveHeaders t s0) = false := by
  unfold adaptLiveHeaders
  cases hm : hmem HEADER_DELEG_TOKEN s0 with
  | true =>
      simp only [hm, if_true]
      cases ha : hmem "Authorization" (hdel s0 HEADER_DELEG_TOKEN) with
      | true => simp [ha, hmem_hdel_self]
      | false => simp [ha, hmem_deleg_hset_auth, hmem_hdel_self]
  | false =>
      simp only [hm, Bool.false_eq_true, if_false]
      cases ha : hmem "Authorization" s0 with
      | true => simp [ha, hm]
      | false => simp [ha, hmem_deleg_hset_auth, hm]

theorem hmem_auth_adaptLive (t : String) (s0 : Headers) :
    hmem "Authorization" (adaptLiveHeaders t s0) = true := by
  unfold adaptLiveHeaders
  cases hm : hmem HEADER_DELEG_TOKEN s0 with
  | true =>
      simp only [hm, if_true]
      cases ha : hmem "Authorization" (hdel s0 HEADER_DELEG_TOKEN) with
      | true => simp [ha]
      | false => simp [ha, hmem_hset_self]
  | false =>
      simp only [hm, Bool.false_eq_true, if_false]
      cases ha : hmem "Authorization" s0 with
      | true => simp [ha]
      | false => simp [ha, hmem_hset_self]

theorem adaptLiveHeaders_noop (t : String) (s : Headers)
    (h1 : hmem HEADER_DELEG_TOKEN s = false) (h2 : hmem "Authorization" s = true) :
    adaptLiveHeaders t s = s := by
  simp [adaptLiveHeaders, h1, h2]

theorem adaptLiveHeaders_idem (t : String) (s0 : Headers) :
    adaptLiveHeaders t (adaptLiveHeaders t s0) = adaptLiveHeaders t s0 :=
  adaptLiveHeaders_noop t _ (hmem_deleg_adaptLive t s0) (hmem_auth_adaptLive t s0)

theorem adaptHeaders_headers (token : String) (e : Endpoint) :
    (adaptHeaders token e).1.ws.headers =
      (if e.connOk && e.getSessionOk then adaptLiveHeaders token e.ws.headers
       else e.ws.headers) := by
  unfold adaptHeaders
  cases hc : e.connOk <;> cases hs : e.getSessionOk <;> simp [hc, hs]

theorem adaptHeaders_session_headers (token : String) (e : Endpoint) :
    (adaptHeaders token e).1.ws.session_headers =
      (if e.connOk then clearShDeleg e.ws.session_headers
       else e.ws.session_headers) := by
  unfold adaptHeaders
  cases hc : e.connOk <;> cases hs : e.getSessionOk <;> simp [hc, hs]

theorem adaptHeaders_flags (token : String) (e : Endpoint) :
    (adaptHeaders token e).1.connOk = e.connOk ∧
    (adaptHeaders token e).1.getSessionOk = e.getSessionOk := by
  unfold adaptHeaders
  cases hc : e.connOk <;> cases hs : e.getSessionOk <;> simp [hc, hs]

theorem adaptHeaders_idem (t : String) (e : Endpoint) :
    adaptHeaders t (adaptHeaders t e).1 = adaptHeaders t e := by
  cases e with
  | mk c g ws =>
      cases ws with
      | mk sh hd =>
          cases c with
          | false => rfl
          | true =>
              cases g with
              | false => simp [adaptHeaders, clearShDeleg_idem]
              | true => simp [adaptHeaders, clearShDeleg_idem, adaptLiveHeaders_idem]

/-- C2 counterexample: the code keeps no Endpoint Registration Set.  With
token `abc123` and an endpoint initially carrying the delegation header,
two resolutions of the same endpoint invoke the header-mutation routine
twice, not at most once; and an already-adapted endpoint whose live headers
were externally cleared is mutated again on the next resolution. -/
theorem adaptation_not_once_counterexample :
    (resolveTimes (.patched "abc123")
        ⟨true, true, ⟨none, [(HEADER_DELEG_TOKEN, "xyz")]⟩⟩ 2).2 = 2 ∧
    ¬ ((resolveTimes (.patched "abc123")
        ⟨true, true, ⟨none, [(HEADER_DELEG_TOKEN, "xyz")]⟩⟩ 2).2 ≤ 1) ∧
    (adaptHeaders "abc123" ⟨true, true, ⟨none, []⟩⟩).1.ws.headers ≠ ([] : Headers) := by
  decide

/-- C2 amended: the patched resolution runs the header-mutation routine on
every resolution (`n` resolutions invoke it `n` times — there is no
registration set and nothing is skipped), but the mutation is idempotent in
its effect: re-running it on an already-adapted endpoint leaves the
endpoint's header state (and the warning outcome) unchanged.  Endpoints
whose headers are externally cleared are re-adapted on the next
resolution. -/
theorem adaptation_every_resolution_idempotent (token : String) (e : Endpoint) (n : Nat) :
    (resolveTimes (.patched token) e n).2 = n ∧
    adaptHeaders token (adaptHeaders token e).1 = adaptHeaders token e := by
  constructor
  · induction n with
    | zero => rfl
    | succ m ih => simp [resolveTimes, resolveOnce, ih]
  · exact adaptHeaders_idem token e

/-- C3: for a handle with captured token `T`, a resolved endpoint whose live
session initially carries the delegation-token header and no Authorization
header ends with `Authorization: Bearer T`, with the delegation-token header
removed from the live session headers and absent from the persistent
`session_headers`; concretely, token `abc123` with initial live headers
`[(X-CADC-DelegationToken, xyz)]` yields exactly
`[(Authorization, Bearer abc123)]`. -/
theorem bearer_adaptation_sets_header (T uri : String) (f : String → Endpoint)
    (hc : (f uri).connOk = true) (hs : (f uri).getSessionOk = true)
    (hd : hmem HEADER_DELEG_TOKEN (f uri).ws.headers = true)
    (ha : hmem "Authorization" (f uri).ws.headers = false) :
    hget ((patched_get_endpoints T f uri).1).ws.headers "Authorization" =
        some ("Bearer " ++ T) ∧
    hmem HEADER_DELEG_TOKEN ((patched_get_endpoints T f uri).1).ws.headers = false ∧
    shHasDeleg ((patched_get_endpoints T f uri).1).ws.session_headers = false ∧
    (patched_get_endpoints "abc123"
        (fun _ => ⟨true, true, ⟨none, [(HEADER_DELEG_TOKEN, "xyz")]⟩⟩) uri).1.ws.headers =
      [("Authorization", "Bearer abc123")] := by
  have h1 : (patched_get_endpoints T f uri).1.ws.headers =
      adaptLiveHeaders T (f uri).ws.headers := by
    rw [patched_get_endpoints, adaptHeaders_headers, hc, hs]
    rfl
  have h2 : (patched_get_endpoints T f uri).1.ws.session_headers =
      clearShDeleg (f uri).ws.session_headers := by
    rw [patched_get_endpoints, adaptHeaders_session_headers, hc]
    rfl
  refine ⟨?_, ?_, ?_, ?_⟩
  · rw [h1]
    simp [adaptLiveHeaders, hd, hmem_auth_hdel_deleg, ha, hget_hset_self]
  · rw [h1]
    exact hmem_deleg_adaptLive T _
  · rw [h2]
    exact shHasDeleg_clearShDeleg _
  · rfl

/-- C3 witness: the theorem applied to the concrete scenario of the claim
(token `abc123`, live headers initially holding only the delegation
header). -/
theorem bearer_adaptation_sets_header_witness :
    hget ((patched_get_endpoints "abc123"
        (fun _ => ⟨true, true, ⟨none, [(HEADER_DELEG_TOKEN, "xyz")]⟩⟩) "vos:a").1).ws.headers
      "Authorization" = some ("Bearer " ++ "abc123") ∧
    (patched_get_endpoints "abc123"
        (fun _ => ⟨true, true, ⟨none, [(HEADER_DELEG_TOKEN, "xyz")]⟩⟩) "vos:a").1.ws.headers =
      [("Authorization", "Bearer abc123")] := by
  have h := bearer_adaptation_sets_header "abc123" "vos:a"
    (fun _ => ⟨true, true, ⟨none, [(HEADER_DELEG_TOKEN, "xyz")]⟩⟩)
    rfl rfl (by decide) (by decide)
  exact ⟨h.1, h.2.2.2⟩

/-- C4 counterexample: a structural-access failure at
`ws_client._get_session()` (after `endpoint.conn.ws_client` succeeded) is
caught, but the endpoint is returned with its persistent `session_headers`
already mutated (the delegation header was deleted before the failure), so
it is not returned unmodified. -/
theorem structural_failure_modifies_counterexample :
    (patched_get_endpoints "abc123"
        (fun _ => ⟨true, false, ⟨some [(HEADER_DELEG_TOKEN, "xyz")], []⟩⟩) "vos:a").1 ≠
      ⟨true, false, ⟨some [(HEADER_DELEG_TOKEN, "xyz")], []⟩⟩ := by
  decide

/-- C4 amended: on a structural attribute-access failure the shim catches
the error, takes the warning branch, and the resolution call still returns
the endpoint without raising; the live session headers are untouched and
the capability structure is unchanged, and when the failure occurs at the
first access (`endpoint.conn.ws_client`) the endpoint is entirely
unmodified — but a failure at `_get_session()` happens after the persistent
`session_headers` were already cleaned, so the endpoint is not unmodified in
general. -/
theorem structural_failure_degrades (token uri : String) (f : String → Endpoint)
    (h : (f uri).connOk = false ∨ (f uri).getSessionOk = false) :
    (patched_get_endpoints token f uri).2 = true ∧
    (patched_get_endpoints token f uri).1.ws.headers = (f uri).ws.headers ∧
    (patched_get_endpoints token f uri).1.connOk = (f uri).connOk ∧
    (patched_get_endpoints token f uri).1.getSessionOk = (f uri).getSessionOk ∧
    ((f uri).connOk = false → (patched_get_endpoints token f uri).1 = f uri) := by
  unfold patched_get_endpoints
  rcases h with h | h
  · simp [adaptHeaders, h]
  · cases hc : (f uri).connOk with
    | false => simp [adaptHeaders, hc]
    | true => simp [adaptHeaders, hc, h]

/-- C4 witness: the amended theorem at a concrete endpoint whose
`conn.ws_client` access fails. -/
theorem structural_failure_degrades_witness :
    (patched_get_endpoints "abc123"
        (fun _ => ⟨false, true, ⟨none, [(HEADER_DELEG_TOKEN, "xyz")]⟩⟩) "vos:a").2 = true ∧
    (patched_get_endpoints "abc123"
        (fun _ => ⟨false, true, ⟨none, [(HEADER_DELEG_TOKEN, "xyz")]⟩⟩) "vos:a").1.ws.headers =
      [(HEADER_DELEG_TOKEN, "xyz")] ∧
    (patched_get_endpoints "abc123"
        (fun _ => ⟨false, true, ⟨none, [(HEADER_DELEG_TOKEN, "xyz")]⟩⟩) "vos:a").1 =
      ⟨false, true, ⟨none, [(HEADER_DELEG_TOKEN, "xyz")]⟩⟩ := by
  have h := structural_failure_degrades "abc123" "vos:a"
    (fun _ => ⟨false, true, ⟨none, [(HEADER_DELEG_TOKEN, "xyz")]⟩⟩) (Or.inl rfl)
  exact ⟨h.1, h.2.1, h.2.2.2.2 rfl⟩

/-- C5: an endpoint whose live session already carries an `Authorization`
header keeps exactly that value after resolution (the Bearer header is not
written over it), and the header remains present. -/
theorem preset_authorization_preserved (token uri : String) (f : String → Endpoint)
    (h : hmem "Authorization" (f uri).ws.headers = true) :
    hget ((patched_get_endpoints token f uri).1).ws.headers "Authorization" =
      hget (f uri).ws.headers "Authorization" ∧
    hmem "Authorization" ((patched_get_endpoints token f uri).1).ws.headers = true := by
  have hh := adaptHeaders_headers token (f uri)
  unfold patched_get_endpoints
  rw [hh]
  cases hcg : ((f uri).connOk && (f uri).getSessionOk) with
  | false => simp [hcg, h]
  | true =>
      simp only [hcg, if_true]
      unfold adaptLiveHeaders
      cases hm : hmem HEADER_DELEG_TOKEN (f uri).ws.headers with
      | true => simp [hm, hmem_auth_hdel_deleg, h, hget_auth_hdel_deleg]
      | false => simp [hm, h]

/-- C5 witness: the theorem at a concrete endpoint carrying a pre-set
`Authorization` header. -/
theorem preset_authorization_preserved_witness :
    hget ((patched_get_endpoints "abc123"
        (fun _ => ⟨true, true, ⟨none, [("Authorization", "Basic xyz")]⟩⟩) "vos:a").1).ws.headers
      "Authorization" =
      hget [("Authorization", "Basic xyz")] "Authorization" ∧
    hmem "Authorization" ((patched_get_endpoints "abc123"
        (fun _ => ⟨true, true, ⟨none, [("Authorization", "Basic xyz")]⟩⟩)
        "vos:a").1).ws.headers = true :=
  preset_authorization_preserved "abc123" "vos:a"
    (fun _ => ⟨true, true, ⟨none, [("Authorization", "Basic xyz")]⟩⟩) (by decide)

theorem vos_client_access_cached (cf : Bool) (env : Env) (t : Option String)
    (st : ClientState) (c : VosClient) (h : st.vos_client_cache = some c) :
    vos_client_access cf env t st = (.ok c, st, env) := by
  unfold vos_client_access
  rw [h]

theorem vos_client_access_fresh (env : Env) (t : Option String) (st : ClientState)
    (h : st.vos_client_cache = none) :
    vos_client_access false env t st =
      (.ok (constructedClient t), ⟨some (constructedClient t), t⟩,
        applyDefaultHost env) := by
  unfold vos_client_access
  rw [h]
  rfl

theorem vos_client_access_fresh_error (env : Env) (t : Option String) (st : ClientState)
    (h : st.vos_client_cache = none) :
    vos_client_access true env t st = (.error (), ⟨none, t⟩, applyDefaultHost env) := by
  unfold vos_client_access
  rw [h]
  rfl

theorem constructedClient_ctor_token (t : Option String) :
    (constructedClient t).ctor_vospace_token = t := by
  unfold constructedClient
  cases ht : pyTruthy t <;> simp [ht]

/-- C1 counterexample: with an authentication context holding token
`abc123`, the first `vos_client` access invokes the `vos.Client`
constructor with `vospace_token=` bound to that token, not without it
(vospace.py line 75). -/
theorem token_passed_to_ctor_counterexample :
    (builtClient false ⟨none, none⟩ (some "abc123") initState).map
      VosClient.ctor_vospace_token ≠ some none := by
  decide

/-- C1 amended: the `vos.Client` constructor is invoked WITH the captured
token through the library's native `vospace_token` parameter — the value
passed equals whatever token the authentication context supplied (`None`
in alternate auth modes), so the library's own delegation-token logic is
engaged at construction time whenever a token exists. -/
theorem ctor_receives_captured_token (env : Env) (t : Option String) (st : ClientState)
    (h : st.vos_client_cache = none) :
    (builtClient false env t st).map VosClient.ctor_vospace_token = some t := by
  rw [builtClient, vos_client_access_fresh env t st h]
  simp [constructedClient_ctor_token]

/-- C1 amended witness: the amended theorem at the concrete token
`abc123`. -/
theorem ctor_receives_captured_token_witness :
    (builtClient false ⟨none, none⟩ (some "abc123") initState).map
      VosClient.ctor_vospace_token = some (some "abc123") :=
  ctor_receives_captured_token ⟨none, none⟩ (some "abc123") initState rfl

/-- C6: with an authentication context supplying no bearer token, no
interception is installed: the constructed client holds the original
endpoint-resolution implementation (and the constructor received `None`). -/
theorem no_token_no_patch (env : Env) (st : ClientState)
    (h : st.vos_client_cache = none) :
    (vos_client_access false env none st).1 =
      .ok { ctor_vospace_token := none, get_endpoints := .original } := by
  rw [vos_client_access_fresh env none st h]
  rfl

/-- C6 witness: the theorem at the initial handle state and an empty
environment. -/
theorem no_token_no_patch_witness :
    (vos_client_access false ⟨none, none⟩ none initState).1 =
      .ok { ctor_vospace_token := none, get_endpoints := GetEndpointsImpl.original } :=
  no_token_no_patch ⟨none, none⟩ initState rfl

/-- C7: the accessor is idempotent: once a first access from the freshly
initialized handle has returned client `c` leaving state `st2`, every later
access returns the same `c` and leaves the handle state unchanged — for any
later environment, any later context token (even a changed one), and
whether or not the wrapped constructor would now fail (it is not called
again). -/
theorem vos_client_access_idempotent (env1 env2 : Env) (t1 t2 : Option String)
    (cf2 : Bool) (c : VosClient) (st2 : ClientState) (env3 : Env)
    (h : vos_client_access false env1 t1 initState = (.ok c, st2, env3)) :
    vos_client_access cf2 env2 t2 st2 = (.ok c, st2, env2) := by
  rw [vos_client_access_fresh env1 t1 initState rfl] at h
  injection h with h1 h23
  injection h23 with h2 h3
  injection h1 with h1
  subst h2
  subst h1
  exact vos_client_access_cached cf2 env2 t2 _ _ rfl

/-- C7 witness: after a first access with token `abc123`, a second access
with a different token and a failing constructor still returns the cached
client unchanged. -/
theorem vos_client_access_idempotent_witness :
    vos_client_access true ⟨some "h", none⟩ (some "other")
        ⟨some (constructedClient (some "abc123")), some "abc123"⟩ =
      (.ok (constructedClient (some "abc123")),
        ⟨some (constructedClient (some "abc123")), some "abc123"⟩,
        ⟨some "h", none⟩) :=
  vos_client_access_idempotent ⟨none, none⟩ ⟨some "h", none⟩ (some "abc123")
    (some "other") true (constructedClient (some "abc123"))
    ⟨some (constructedClient (some "abc123")), some "abc123"⟩
    ⟨some DEFAULT_VOSPACE_HOST, none⟩ rfl

/-- C8 counterexample: with `VOSPACE_WEBSERVICE` set to the empty string —
set in the environment, but falsy for Python's `os.getenv` truthiness test
— the first access still applies the default host, so the default IS
applied although an override variable is set. -/
theorem default_host_empty_string_counterexample :
    ((⟨some "", none⟩ : Env).vospace_webservice ≠ none) ∧
    (vos_client_access false ⟨some "", none⟩ none initState).2.2.vospace_webservice =
      some DEFAULT_VOSPACE_HOST := by
  decide

/-- C8 amended: the default host is applied exactly when neither override
variable holds a truthy (non-empty) value: if both are unset or empty, the
resulting process environment carries the default host under
`VOSPACE_WEBSERVICE`; if either holds a non-empty string, the environment
is left entirely unchanged. -/
theorem default_host_applied_iff_truthy (cf : Bool) (env : Env) (t : Option String)
    (st : ClientState) (h : st.vos_client_cache = none) :
    (pyTruthy env.vospace_webservice = false →
      pyTruthy env.local_vospace_webservice = false →
      (vos_client_access cf env t st).2.2.vospace_webservice =
        some DEFAULT_VOSPACE_HOST) ∧
    ((pyTruthy env.vospace_webservice = true ∨
        pyTruthy env.local_vospace_webservice = true) →
      (vos_client_access cf env t st).2.2 = env) := by
  have he : (vos_client_access cf env t st).2.2 = applyDefaultHost env := by
    cases cf with
    | false => rw [vos_client_access_fresh env t st h]
    | true => rw [vos_client_access_fresh_error env t st h]
  rw [he]
  constructor
  · intro h1 h2
    simp [applyDefaultHost, h1, h2]
  · intro h12
    rcases h12 with h1 | h1 <;> simp [applyDefaultHost, h1]

/-- C8 amended witness: with both variables unset the default host is
written. -/
theorem default_host_applied_iff_truthy_witness :
    (vos_client_access false ⟨none, none⟩ none initState).2.2.vospace_webservice =
      some DEFAULT_VOSPACE_HOST :=
  (default_host_applied_iff_truthy false ⟨none, none⟩ none initState rfl).1 rfl rfl

/-- C9: when neither environment variable is set, the first access writes
the default host into the process environment under `VOSPACE_WEBSERVICE`
(whether or not the wrapped constructor then fails), leaves the local
variant unset, and the mutation persists: any later access, from any handle
state, leaves the resulting process environment unchanged, so every later
reader observes the default. -/
theorem default_host_written_to_process_env (cf : Bool) (t : Option String) (env : Env)
    (h1 : env.vospace_webservice = none) (h2 : env.local_vospace_webservice = none) :
    (vos_client_access cf env t initState).2.2.vospace_webservice =
      some DEFAULT_VOSPACE_HOST ∧
    (vos_client_access cf env t initState).2.2.local_vospace_webservice = none ∧
    (∀ (cf2 : Bool) (t2 : Option String) (st2 : ClientState),
      (vos_client_access cf2 (vos_client_access cf env t initState).2.2 t2 st2).2.2 =
        (vos_client_access cf env t initState).2.2) := by
  have henv : env = ⟨none, none⟩ := by
    cases env
    simp_all
  subst henv
  have he : (vos_client_access cf (⟨none, none⟩ : Env) t initState).2.2 =
      (⟨some DEFAULT_VOSPACE_HOST, none⟩ : Env) := by
    cases cf with
    | false =>
        rw [vos_client_access_fresh _ t initState rfl]
        rfl
    | true =>
        rw [vos_client_access_fresh_error _ t initState rfl]
        rfl
  rw [he]
  refine ⟨rfl, rfl, ?_⟩
  intro cf2 t2 st2
  have hkeep : applyDefaultHost (⟨some DEFAULT_VOSPACE_HOST, none⟩ : Env) =
      (⟨some DEFAULT_VOSPACE_HOST, none⟩ : Env) := by decide
  cases hst : st2.vos_client_cache with
  | some c => rw [vos_client_access_cached cf2 _ t2 st2 c hst]
  | none =>
      cases cf2 with
      | false => rw [vos_client_access_fresh _ t2 st2 hst, hkeep]
      | true => rw [vos_client_access_fresh_error _ t2 st2 hst, hkeep]

/-- C9 witness: the theorem at a concretely empty environment. -/
theorem default_host_written_to_process_env_witness :
    (vos_client_access false ⟨none, none⟩ none initState).2.2.vospace_webservice =
      some DEFAULT_VOSPACE_HOST :=
  (default_host_written_to_process_env false none ⟨none, none⟩ rfl rfl).1

/-- C10: a failed construction is not cached: when the wrapped constructor
raises on first access, the exception propagates (`error` result) and the
cached client field stays `None`; a subsequent access therefore re-runs the
full construction sequence — applying the environment default to the new
environment, re-capturing the context token, constructing and patching a
new client, and caching it — exactly as an access from a fresh handle
would. -/
theorem failed_construction_not_cached (env : Env) (t : Option String) :
    (vos_client_access true env t initState).1 = .error () ∧
    (vos_client_access true env t initState).2.1.vos_client_cache = none ∧
    (∀ (env2 : Env) (t2 : Option String),
      vos_client_access false env2 t2 (vos_client_access true env t initState).2.1 =
        (.ok (constructedClient t2), ⟨some (constructedClient t2), t2⟩,
          applyDefaultHost env2)) := by
  rw [vos_client_access_fresh_error env t initState rfl]
  refine ⟨rfl, rfl, ?_⟩
  intro env2 t2
  exact vos_client_access_fresh env2 t2 ⟨none, t⟩ rfl

end Canfar
